import Mathlib

/-!
  # Conversation/version state reconciliation of the websimm front end

  A shallow embedding of the main page controller (`frontend/app/page.tsx`):
  the React state variables become a `HomeState` record, and each handler
  becomes a pure state-transition function. Network effects are made
  explicit: `handleSendMessage` takes the outcome of the generation call
  (`NetResult`) as a parameter and returns, besides the new state, the
  request it issued (`Option GameRequest`, `none` when the in-flight guard
  dropped the call). The wall clock (`Date.now()` / `new Date()`) enters as
  a `now : Nat` parameter; `Date` values are carried as strings, which the
  claims never inspect beyond equality.
-/

namespace Websimm

/-- Role of a chat message, from the `'user' | 'assistant'` union in
`frontend/app/types.ts`. -/
inductive Role where
  | user
  | assistant
deriving DecidableEq

/-- `Message` from `frontend/app/types.ts`. -/
structure Message where
  id : String
  role : Role
  content : String
  timestamp : String
deriving DecidableEq

/-- `GameFiles` from `frontend/app/types.ts`. -/
structure GameFiles where
  html : String
deriving DecidableEq

/-- `GameVersion` from `frontend/app/types.ts`. -/
structure GameVersion where
  id : Nat
  files : GameFiles
  description : String
  userPrompt : String
  timestamp : String
  messageId : String
deriving DecidableEq

/-- `GameData` from `frontend/app/types.ts`. -/
structure GameData where
  title : String
  game_type : String
  game_logic : String
  description : String
  html_content : String
  image_resources : List String
  audio_resources : List String
  agent_chain : List String
deriving DecidableEq

/-- `BackendMessage` from `frontend/app/types.ts` (the `usage` record is
dropped: no handler reads it). -/
structure BackendMessage where
  message_id : String
  user_prompt : String
  history_enhanced_prompt : Option String
  parent_message_id : Option String
  timestamp : String
  game_data : GameData
deriving DecidableEq

/-- `ConversationFull` from `frontend/app/types.ts`. -/
structure ConversationFull where
  id : String
  conversation_id : String
  title : String
  messages : List BackendMessage
  created_at : String
  updated_at : String
deriving DecidableEq

/-- `NewGameResponse` / `HistoryBasedGameResponse` from
`frontend/app/types.ts` — the two have the same shape (`usage` dropped:
unread). -/
structure GameResponse where
  conversation_id : String
  message_id : String
  game_data : GameData
deriving DecidableEq

/-- `ModelInfo` from `frontend/app/types.ts`. -/
structure ModelInfo where
  id : String
  name : String
  provider : String
deriving DecidableEq

/-- The React state of the `Home` component in `frontend/app/page.tsx`:
one field per `useState` hook, plus the `requestInProgress` ref. -/
structure HomeState where
  messages : List Message
  models : List ModelInfo
  selectedModel : String
  gameVersions : List GameVersion
  currentGameIndex : Int
  isGenerating : Bool
  currentConversationId : String
  currentParentMessageId : String
  showConversationModal : Bool
  requestInProgress : Bool
deriving DecidableEq

/-- The initial values of the `useState` hooks in `page.tsx`. -/
def initState : HomeState :=
  { messages := []
    models := []
    selectedModel := ""
    gameVersions := []
    currentGameIndex := -1
    isGenerating := false
    currentConversationId := ""
    currentParentMessageId := ""
    showConversationModal := false
    requestInProgress := false }

/-- The network request `handleSendMessage` issues: one constructor per
`ConversationApi` generation endpoint. -/
inductive GameRequest where
  | newGame (user_prompt : String) (model : Option String)
  | historyBased (conversation_id : String) (parent_message_id : String)
      (user_prompt : String) (model : Option String)
deriving DecidableEq

/-- Outcome of the awaited generation call: the typed response, or the
thrown error caught by the `catch` block. -/
inductive NetResult where
  | success (resp : GameResponse)
  | failure
deriving DecidableEq

/-- `selectedModel || undefined` in the request bodies of `page.tsx`:
the empty string (JS falsy) becomes an absent field. -/
def modelOpt (s : HomeState) : Option String :=
  if s.selectedModel = "" then none else some s.selectedModel

/-- The optimistic user `Message` built at the top of `handleSendMessage`
(`id: Date.now().toString()`). -/
def userMessageOf (content : String) (now : Nat) : Message :=
  { id := toString now
    role := Role.user
    content := content
    timestamp := toString now }

/-- The assistant `Message` built from a successful response in
`handleSendMessage`. -/
def aiMessageOf (resp : GameResponse) (now : Nat) : Message :=
  { id := resp.message_id
    role := Role.assistant
    content := "已生成游戏：" ++ resp.game_data.title
    timestamp := toString now }

/-- The synthesized failure `Message` built in the `catch` block of
`handleSendMessage` (`id: (Date.now() + 1).toString()`). -/
def errorMessageOf (now : Nat) : Message :=
  { id := toString (now + 1)
    role := Role.assistant
    content := "抱歉，生成游戏时出现错误，请重试。"
    timestamp := toString now }

/-- The `GameVersion` appended on success in `handleSendMessage`:
`id` is the length of the version list at the start of the call. -/
def newVersionOf (s : HomeState) (content : String) (resp : GameResponse)
    (now : Nat) : GameVersion :=
  { id := s.gameVersions.length
    files := { html := resp.game_data.html_content }
    description := resp.game_data.description
    userPrompt := content
    timestamp := toString now
    messageId := resp.message_id }

/-- `handleSendMessage` from `page.tsx` as one completed transition.
Returns the state after the handler finishes and the request it issued
(`none` when the `requestInProgress` guard rejected the call).
The `finally` block's effect — `isGenerating` and `requestInProgress`
cleared — appears on both the success and the failure branch. -/
def handleSendMessage (s : HomeState) (content : String) (now : Nat)
    (net : NetResult) : HomeState × Option GameRequest :=
  if s.requestInProgress then (s, none)
  else
    let newMessages := s.messages ++ [userMessageOf content now]
    let req : GameRequest :=
      if s.currentConversationId = "" ∨ s.currentParentMessageId = "" then
        GameRequest.newGame content (modelOpt s)
      else
        GameRequest.historyBased s.currentConversationId
          s.currentParentMessageId content (modelOpt s)
    match net with
    | NetResult.success resp =>
        let s1 :=
          if s.currentConversationId = "" ∨ s.currentParentMessageId = "" then
            { s with currentConversationId := resp.conversation_id
                     currentParentMessageId := resp.message_id }
          else
            { s with currentParentMessageId := resp.message_id }
        ({ s1 with
            messages := newMessages ++ [aiMessageOf resp now]
            gameVersions := s.gameVersions ++ [newVersionOf s content resp now]
            currentGameIndex := (s.gameVersions.length : Int)
            isGenerating := false
            requestInProgress := false }, some req)
    | NetResult.failure =>
        ({ s with
            messages := newMessages ++ [errorMessageOf now]
            isGenerating := false
            requestInProgress := false }, some req)

/-- `handleSelectGameVersion` from `page.tsx`: a bare
`setCurrentGameIndex(index)`. -/
def handleSelectGameVersion (s : HomeState) (index : Int) : HomeState :=
  { s with currentGameIndex := index }

/-- `handleGameVersionUpdate` from `page.tsx`: map over the version list,
replacing every version whose `id` equals the updated version's `id`. -/
def handleGameVersionUpdate (s : HomeState) (updatedVersion : GameVersion) :
    HomeState :=
  { s with
      gameVersions := s.gameVersions.map fun version =>
        if version.id = updatedVersion.id then updatedVersion else version }

/-- `handleFilesChange` from `GamePreview.tsx`: spread the displayed
version, replacing only `files`. -/
def handleFilesChange (gameVersion : GameVersion) (newFiles : GameFiles) :
    GameVersion :=
  { gameVersion with files := newFiles }

/-- The spec's `updateVersionFiles(versionId, newFiles)`: the composition
of `GamePreview.handleFilesChange` and `page.tsx`'s
`handleGameVersionUpdate`, targeting the version `v`. -/
def updateVersionFiles (s : HomeState) (v : GameVersion)
    (newFiles : GameFiles) : HomeState :=
  handleGameVersionUpdate s (handleFilesChange v newFiles)

/-- The user `Message` synthesized for one backend message in
`handleSelectConversation`. -/
def userMessageOfBackend (m : BackendMessage) : Message :=
  { id := m.message_id ++ "_user"
    role := Role.user
    content := m.user_prompt
    timestamp := m.timestamp }

/-- The assistant `Message` synthesized for one backend message in
`handleSelectConversation`. -/
def assistantMessageOfBackend (m : BackendMessage) : Message :=
  { id := m.message_id
    role := Role.assistant
    content := "已生成游戏：" ++ m.game_data.title
    timestamp := m.timestamp }

/-- The `GameVersion` synthesized for the backend message at position
`index` in `handleSelectConversation`. -/
def gameVersionOfBackend (index : Nat) (m : BackendMessage) : GameVersion :=
  { id := index
    files := { html := m.game_data.html_content }
    description := m.game_data.description
    userPrompt := m.user_prompt
    timestamp := m.timestamp
    messageId := m.message_id }

/-- The `loadedMessages` array built by the `forEach` loop of
`handleSelectConversation`: each backend message pushes its user `Message`
then its assistant `Message`. -/
def loadedMessagesOf : List BackendMessage → List Message
  | [] => []
  | m :: rest =>
      userMessageOfBackend m :: assistantMessageOfBackend m ::
        loadedMessagesOf rest

/-- The `loadedGameVersions` array built by the `forEach` loop of
`handleSelectConversation`, threading the running index. -/
def loadedVersionsOfAux : Nat → List BackendMessage → List GameVersion
  | _, [] => []
  | i, m :: rest => gameVersionOfBackend i m :: loadedVersionsOfAux (i + 1) rest

/-- The `loadedGameVersions` array of `handleSelectConversation`:
`GameVersion` `id` equals the backend message's position. -/
def loadedVersionsOf (msgs : List BackendMessage) : List GameVersion :=
  loadedVersionsOfAux 0 msgs

/-- `handleSelectConversation` from `page.tsx` on a successfully fetched
`ConversationFull`: full replace of the message and version lists,
selection at the last version (or `-1`), `currentParentMessageId`
overwritten only when the backend message list is non-empty. -/
def handleSelectConversation (s : HomeState)
    (conversationFull : ConversationFull) : HomeState :=
  let loadedGameVersions := loadedVersionsOf conversationFull.messages
  { s with
      currentConversationId := conversationFull.conversation_id
      messages := loadedMessagesOf conversationFull.messages
      gameVersions := loadedGameVersions
      currentGameIndex :=
        if loadedGameVersions.length > 0 then
          (loadedGameVersions.length : Int) - 1
        else -1
      currentParentMessageId :=
        match conversationFull.messages.getLast? with
        | some lastMessage => lastMessage.message_id
        | none => s.currentParentMessageId }

/-- `handleNewConversation` from `page.tsx`: the reset to empty thread
state. -/
def handleNewConversation (s : HomeState) : HomeState :=
  { s with
      currentConversationId := ""
      currentParentMessageId := ""
      messages := []
      gameVersions := []
      currentGameIndex := -1 }

/-- States reachable from the initial render through the handlers of
`page.tsx`, over all user inputs, clock values, backend responses and
backend conversation records. -/
inductive Reachable : HomeState → Prop where
  | init : Reachable initState
  | send (s : HomeState) (content : String) (now : Nat) (net : NetResult) :
      Reachable s → Reachable (handleSendMessage s content now net).1
  | select (s : HomeState) (index : Int) :
      Reachable s → Reachable (handleSelectGameVersion s index)
  | update (s : HomeState) (updatedVersion : GameVersion) :
      Reachable s → Reachable (handleGameVersionUpdate s updatedVersion)
  | load (s : HomeState) (conv : ConversationFull) :
      Reachable s → Reachable (handleSelectConversation s conv)
  | reset (s : HomeState) :
      Reachable s → Reachable (handleNewConversation s)

/-- The selection-index invariant of the spec: `-1` or a valid zero-based
position into the current version list. -/
def selectionValid (s : HomeState) : Prop :=
  s.currentGameIndex = -1 ∨
    (0 ≤ s.currentGameIndex ∧ s.currentGameIndex < (s.gameVersions.length : Int))

instance (s : HomeState) : Decidable (selectionValid s) :=
  inferInstanceAs (Decidable (_ ∨ _))

/-! ## C1: `selectVersion` and the selection-index invariant -/

/-- C1 counterexample: `handleSelectGameVersion` performs no bound check —
selecting index `5` on the empty initial version list leaves the selection
index at `5`, which is neither `-1` nor a valid position. -/
theorem selectVersion_no_bound_check :
    ¬ selectionValid (handleSelectGameVersion initState 5) := by
  decide

/-- C1 (amended): `selectVersion` performs no bound check — for every state
and every integer index it stores the index as-is and leaves the version
list untouched, so the invariant that the selection index is `-1` or a
valid zero-based position holds after the call exactly when the argument is
`-1` or an in-range index. -/
theorem selectVersion_valid_iff (s : Websimm.HomeState) (index : Int) :
    (handleSelectGameVersion s index).currentGameIndex = index ∧
    (handleSelectGameVersion s index).gameVersions = s.gameVersions ∧
    (selectionValid (handleSelectGameVersion s index) ↔
      (index = -1 ∨
        (0 ≤ index ∧ index < (s.gameVersions.length : Int)))) :=
  ⟨rfl, rfl, Iff.rfl⟩

/-! ## C3: the failure path of `submitPrompt` -/

/-- C3: when the generation call of `submitPrompt` fails, the thread state
(`currentConversationId`, `currentParentMessageId`) and the version list
are exactly as before the call; the message list gains exactly the
optimistic user message followed by one synthesized assistant failure
message. -/
theorem sendMessage_failure_frame (s : HomeState) (content : String)
    (now : Nat) (h : s.requestInProgress = false) :
    (handleSendMessage s content now NetResult.failure).1.currentConversationId
        = s.currentConversationId ∧
    (handleSendMessage s content now NetResult.failure).1.currentParentMessageId
        = s.currentParentMessageId ∧
    (handleSendMessage s content now NetResult.failure).1.gameVersions
        = s.gameVersions ∧
    (handleSendMessage s content now NetResult.failure).1.messages
        = s.messages ++ [userMessageOf content now, errorMessageOf now] ∧
    (errorMessageOf now).role = Role.assistant ∧
    (userMessageOf content now).role = Role.user := by
  simp [handleSendMessage, h, errorMessageOf, userMessageOf]

/-- C3 witness: the failure frame at the initial state with prompt `"p"`
and clock `0`. -/
theorem sendMessage_failure_frame_witness :
    (handleSendMessage initState "p" 0 NetResult.failure).1.currentConversationId
        = initState.currentConversationId ∧
    (handleSendMessage initState "p" 0 NetResult.failure).1.currentParentMessageId
        = initState.currentParentMessageId ∧
    (handleSendMessage initState "p" 0 NetResult.failure).1.gameVersions
        = initState.gameVersions ∧
    (handleSendMessage initState "p" 0 NetResult.failure).1.messages
        = initState.messages ++ [userMessageOf "p" 0, errorMessageOf 0] ∧
    (errorMessageOf 0).role = Role.assistant ∧
    (userMessageOf "p" 0).role = Role.user :=
  sendMessage_failure_frame initState "p" 0 rfl

/-! ## C6: the in-flight guard -/

/-- C6: when the in-flight guard is set, `submitPrompt` returns with the
state unchanged and issues no network request. -/
theorem sendMessage_guarded_noop (s : HomeState) (content : String)
    (now : Nat) (net : NetResult) (h : s.requestInProgress = true) :
    handleSendMessage s content now net = (s, none) := by
  simp [handleSendMessage, h]

/-- C6 witness: a state with the guard set drops the call. -/
theorem sendMessage_guarded_noop_witness :
    handleSendMessage { initState with requestInProgress := true } "p" 0
        NetResult.failure
      = ({ initState with requestInProgress := true }, none) :=
  sendMessage_guarded_noop { initState with requestInProgress := true }
    "p" 0 NetResult.failure rfl

/-! ## C9: guaranteed release of the guard and the generating flag -/

/-- C9: every `submitPrompt` call that passes the in-flight guard ends with
both the generating flag and the guard cleared, on the success path and on
the failure path alike. -/
theorem sendMessage_releases_guard (s : HomeState) (content : String)
    (now : Nat) (net : NetResult) (h : s.requestInProgress = false) :
    (handleSendMessage s content now net).1.isGenerating = false ∧
    (handleSendMessage s content now net).1.requestInProgress = false := by
  cases net with
  | success resp =>
      by_cases hc : s.currentConversationId = "" ∨ s.currentParentMessageId = ""
      · simp [handleSendMessage, h, hc]
      · simp [handleSendMessage, h, hc]
  | failure => simp [handleSendMessage, h]

/-- C9 witness: the flags are clear after a successful call from the
initial state. -/
theorem sendMessage_releases_guard_witness :
    (handleSendMessage initState "p" 0
        (NetResult.success
          { conversation_id := "c1", message_id := "m1",
            game_data :=
              { title := "t", game_type := "g", game_logic := "l",
                description := "d", html_content := "h",
                image_resources := [], audio_resources := [],
                agent_chain := [] } })).1.isGenerating = false ∧
    (handleSendMessage initState "p" 0
        (NetResult.success
          { conversation_id := "c1", message_id := "m1",
            game_data :=
              { title := "t", game_type := "g", game_logic := "l",
                description := "d", html_content := "h",
                image_resources := [], audio_resources := [],
                agent_chain := [] } })).1.requestInProgress = false :=
  sendMessage_releases_guard initState "p" 0 _ rfl

/-! ## C2: which request does `submitPrompt` issue? -/

/-- A backend conversation record holding zero messages, as returned for a
conversation that exists but has no generations. -/
def emptyConvRecord : ConversationFull :=
  { id := "c1"
    conversation_id := "c1"
    title := "t"
    messages := []
    created_at := "2024-01-01"
    updated_at := "2024-01-01" }

/-- The state reached by loading `emptyConvRecord` from the initial
render: `currentConversationId = "c1"` but `currentParentMessageId = ""`. -/
def stateAfterEmptyLoad : HomeState :=
  handleSelectConversation initState emptyConvRecord

/-- C2 counterexample: `stateAfterEmptyLoad` is reachable, is not a state
where both thread fields are empty, and yet `submitPrompt` there issues a
new-game request, not a history-based one — the code branches on
`conversationId` empty OR `parentMessageId` empty, not on both empty. -/
theorem sendMessage_branch_counterexample :
    Reachable stateAfterEmptyLoad ∧
    ¬ (stateAfterEmptyLoad.currentConversationId = "" ∧
        stateAfterEmptyLoad.currentParentMessageId = "") ∧
    (handleSendMessage stateAfterEmptyLoad "p" 0 NetResult.failure).2
        = some (GameRequest.newGame "p" none) ∧
    ∀ convId parentId model,
      (handleSendMessage stateAfterEmptyLoad "p" 0 NetResult.failure).2
        ≠ some (GameRequest.historyBased convId parentId "p" model) := by
  refine ⟨Reachable.load initState emptyConvRecord Reachable.init, ?_, ?_, ?_⟩
  · decide
  · decide
  · intro convId parentId model hEq
    have hNew : (handleSendMessage stateAfterEmptyLoad "p" 0 NetResult.failure).2
        = some (GameRequest.newGame "p" none) := by decide
    rw [hNew] at hEq
    exact absurd (Option.some.inj hEq) (by simp)

/-- C2 (amended): a `submitPrompt` call that passes the guard issues a
new-game request iff `currentConversationId` is empty or
`currentParentMessageId` is empty; only when both are non-empty does it
issue a history-based request, carrying the current thread state. -/
theorem sendMessage_branch (s : HomeState) (content : String) (now : Nat)
    (net : NetResult) (h : s.requestInProgress = false) :
    ((handleSendMessage s content now net).2
        = some (GameRequest.newGame content (modelOpt s)) ↔
      (s.currentConversationId = "" ∨ s.currentParentMessageId = "")) ∧
    (s.currentConversationId ≠ "" → s.currentParentMessageId ≠ "" →
      (handleSendMessage s content now net).2
        = some (GameRequest.historyBased s.currentConversationId
            s.currentParentMessageId content (modelOpt s))) := by
  by_cases hc : s.currentConversationId = "" ∨ s.currentParentMessageId = ""
  · constructor
    · cases net <;> simp [handleSendMessage, h, hc]
    · intro h1 h2
      exact absurd hc (by simp [h1, h2])
  · constructor
    · cases net <;> simp [handleSendMessage, h, hc]
    · intro h1 h2
      cases net <;> simp [handleSendMessage, h, hc]

/-- C2 witness: from the initial state (both fields empty) the issued
request is a new-game request. -/
theorem sendMessage_branch_witness :
    ((handleSendMessage initState "p" 0 NetResult.failure).2
        = some (GameRequest.newGame "p" (modelOpt initState)) ↔
      (initState.currentConversationId = "" ∨
        initState.currentParentMessageId = "")) ∧
    (initState.currentConversationId ≠ "" →
      initState.currentParentMessageId ≠ "" →
      (handleSendMessage initState "p" 0 NetResult.failure).2
        = some (GameRequest.historyBased initState.currentConversationId
            initState.currentParentMessageId "p" (modelOpt initState))) :=
  sendMessage_branch initState "p" 0 NetResult.failure rfl

/-! ## C7: idempotence of `loadConversation` -/

/-- C7: loading the same backend conversation record twice in a row yields
the same message list, the same version list and the same selection index
as loading it once — all three are functions of the record alone. -/
theorem selectConversation_idempotent (s : HomeState)
    (conv : ConversationFull) :
    (handleSelectConversation (handleSelectConversation s conv) conv).messages
        = (handleSelectConversation s conv).messages ∧
    (handleSelectConversation (handleSelectConversation s conv) conv).gameVersions
        = (handleSelectConversation s conv).gameVersions ∧
    (handleSelectConversation (handleSelectConversation s conv) conv).currentGameIndex
        = (handleSelectConversation s conv).currentGameIndex :=
  ⟨rfl, rfl, rfl⟩

/-! ## C8: loading an empty conversation -/

/-- C8: loading a backend conversation with zero messages produces an
empty message list, an empty version list and selection index `-1`. -/
theorem selectConversation_empty (s : HomeState) (conv : ConversationFull)
    (h : conv.messages = []) :
    (handleSelectConversation s conv).messages = [] ∧
    (handleSelectConversation s conv).gameVersions = [] ∧
    (handleSelectConversation s conv).currentGameIndex = -1 := by
  simp [handleSelectConversation, loadedMessagesOf, loadedVersionsOf,
    loadedVersionsOfAux, h]

/-- C8 witness: loading the concrete empty record from the initial
state. -/
theorem selectConversation_empty_witness :
    (handleSelectConversation initState emptyConvRecord).messages = [] ∧
    (handleSelectConversation initState emptyConvRecord).gameVersions = [] ∧
    (handleSelectConversation initState emptyConvRecord).currentGameIndex = -1 :=
  selectConversation_empty initState emptyConvRecord rfl

/-! ## C10: the thread-state frame of loading an empty conversation -/

/-- C10: loading a backend conversation with zero messages overwrites
`currentConversationId` with the record's conversation id but leaves
`currentParentMessageId` at its previous value. -/
theorem selectConversation_empty_thread_frame (s : HomeState)
    (conv : ConversationFull) (h : conv.messages = []) :
    (handleSelectConversation s conv).currentConversationId
        = conv.conversation_id ∧
    (handleSelectConversation s conv).currentParentMessageId
        = s.currentParentMessageId := by
  simp [handleSelectConversation, h]

/-- A session state mid-conversation: thread state `("c0", "m7")`. -/
def midSessionState : HomeState :=
  { initState with
      currentConversationId := "c0"
      currentParentMessageId := "m7" }

/-- C10 witness: loading the empty record over a session that had
`currentParentMessageId = "m7"` keeps `"m7"`. -/
theorem selectConversation_empty_thread_frame_witness :
    (handleSelectConversation midSessionState
        emptyConvRecord).currentConversationId
      = emptyConvRecord.conversation_id ∧
    (handleSelectConversation midSessionState
        emptyConvRecord).currentParentMessageId
      = midSessionState.currentParentMessageId :=
  selectConversation_empty_thread_frame midSessionState emptyConvRecord rfl

/-! ## C4: successful submissions build an append-only, position-indexed
version list -/

/-- The inputs of one successful `submitPrompt` call: the prompt text, the
clock value and the backend response. -/
structure SendCall where
  content : String
  now : Nat
  resp : GameResponse

/-- Run a sequence of successful `submitPrompt` calls. -/
def runSuccesses (s : HomeState) (calls : List SendCall) : HomeState :=
  calls.foldl
    (fun st k => (handleSendMessage st k.content k.now (NetResult.success k.resp)).1)
    s

/-- One successful call that passes the guard: the version list gains
exactly the new version at the end, the selection index becomes the old
length, and the guard ends clear. -/
lemma sendSuccess_step (s : HomeState) (c : String) (now : Nat)
    (r : GameResponse) (h : s.requestInProgress = false) :
    (handleSendMessage s c now (NetResult.success r)).1.gameVersions
        = s.gameVersions ++ [newVersionOf s c r now] ∧
    (handleSendMessage s c now (NetResult.success r)).1.currentGameIndex
        = (s.gameVersions.length : Int) ∧
    (handleSendMessage s c now (NetResult.success r)).1.requestInProgress
        = false := by
  by_cases hc : s.currentConversationId = "" ∨ s.currentParentMessageId = "" <;>
    simp [handleSendMessage, h, hc]

/-- The invariant of C4, preserved by any run of successful calls: guard
clear, version ids enumerate the positions, selection one below the
length. -/
lemma runSuccesses_inv (calls : List SendCall) :
    ∀ s : HomeState, s.requestInProgress = false →
      s.gameVersions.map GameVersion.id = List.range s.gameVersions.length →
      s.currentGameIndex = (s.gameVersions.length : Int) - 1 →
      (runSuccesses s calls).requestInProgress = false ∧
      (runSuccesses s calls).gameVersions.length
          = s.gameVersions.length + calls.length ∧
      (runSuccesses s calls).gameVersions.map GameVersion.id
          = List.range (runSuccesses s calls).gameVersions.length ∧
      (runSuccesses s calls).currentGameIndex
          = ((runSuccesses s calls).gameVersions.length : Int) - 1 := by
  induction calls with
  | nil =>
      intro s h1 h2 h3
      exact ⟨h1, rfl, h2, h3⟩
  | cons k ks ih =>
      intro s h1 h2 h3
      obtain ⟨hgv, hsel, hguard⟩ := sendSuccess_step s k.content k.now k.resp h1
      set s1 := (handleSendMessage s k.content k.now (NetResult.success k.resp)).1
      have hrun : runSuccesses s (k :: ks) = runSuccesses s1 ks := rfl
      have hlen1 : s1.gameVersions.length = s.gameVersions.length + 1 := by
        rw [hgv]; simp
      have hids1 : s1.gameVersions.map GameVersion.id
          = List.range s1.gameVersions.length := by
        rw [hgv]
        simp [List.map_append, h2, List.range_succ, newVersionOf]
      have hsel1 : s1.currentGameIndex = (s1.gameVersions.length : Int) - 1 := by
        rw [hsel, hlen1]
        push_cast
        ring
      obtain ⟨g1, g2, g3, g4⟩ := ih s1 hguard hids1 hsel1
      refine ⟨by rw [hrun]; exact g1, ?_, by rw [hrun]; exact g3,
        by rw [hrun]; exact g4⟩
      rw [hrun, g2, hlen1]
      simp [List.length_cons]
      ring

/-- C4: after any sequence of N successful `submitPrompt` calls from the
initial state, the version list has length N, the version ids enumerate
the zero-based positions `0, …, N-1`, and the selection index is `N - 1`,
the position of the newly appended version (`-1` when N = 0). -/
theorem sendSuccesses_appendOnly (calls : List SendCall) :
    (runSuccesses initState calls).gameVersions.length = calls.length ∧
    (runSuccesses initState calls).gameVersions.map GameVersion.id
        = List.range calls.length ∧
    (runSuccesses initState calls).currentGameIndex
        = (calls.length : Int) - 1 := by
  obtain ⟨-, hlen, hids, hsel⟩ :=
    runSuccesses_inv calls initState rfl rfl (by decide)
  have hlen' : (runSuccesses initState calls).gameVersions.length
      = calls.length := by simpa [initState] using hlen
  exact ⟨hlen', by rw [hids, hlen'], by rw [hsel, hlen']⟩

/-! ## C5: `updateVersionFiles` is a single-field frame -/

/-- C5: when version ids are pairwise distinct and `v` sits at position
`i` of the version list, `updateVersionFiles` targeting `v` replaces only
that version's `files` field — the version at `i` keeps its `id`,
`description`, `userPrompt`, `timestamp` and `messageId` — while every
other position, the list length, the selection index, the message list and
the thread state are unchanged. -/
theorem updateVersionFiles_frame (s : HomeState) (i : Nat)
    (newFiles : GameFiles) (v : GameVersion)
    (hv : s.gameVersions[i]? = some v)
    (hn : (s.gameVersions.map GameVersion.id).Nodup) :
    (updateVersionFiles s v newFiles).currentGameIndex = s.currentGameIndex ∧
    (updateVersionFiles s v newFiles).messages = s.messages ∧
    (updateVersionFiles s v newFiles).currentConversationId
        = s.currentConversationId ∧
    (updateVersionFiles s v newFiles).currentParentMessageId
        = s.currentParentMessageId ∧
    (updateVersionFiles s v newFiles).gameVersions.length
        = s.gameVersions.length ∧
    (updateVersionFiles s v newFiles).gameVersions[i]?
        = some { v with files := newFiles } ∧
    ∀ j, j ≠ i →
      (updateVersionFiles s v newFiles).gameVersions[j]?
        = s.gameVersions[j]? := by
  have hgv : (updateVersionFiles s v newFiles).gameVersions
      = s.gameVersions.map fun w =>
          if w.id = v.id then { v with files := newFiles } else w := rfl
  have hi : i < s.gameVersions.length := by
    rcases List.getElem?_eq_some.1 hv with ⟨hlt, -⟩
    exact hlt
  have hvi : s.gameVersions[i] = v := by
    rcases List.getElem?_eq_some.1 hv with ⟨hlt, heq⟩
    exact heq
  refine ⟨rfl, rfl, rfl, rfl, by rw [hgv]; simp, ?_, ?_⟩
  · rw [hgv, List.getElem?_map, hv]
    simp
  · intro j hj
    rw [hgv, List.getElem?_map]
    rcases hw : s.gameVersions[j]? with - | w
    · rfl
    · have hjlt : j < s.gameVersions.length := by
        rcases List.getElem?_eq_some.1 hw with ⟨hlt, -⟩
        exact hlt
      have hwj : s.gameVersions[j] = w := by
        rcases List.getElem?_eq_some.1 hw with ⟨hlt, heq⟩
        exact heq
      have hne : w.id ≠ v.id := by
        intro hEq
        apply hj
        have hi' : i < (s.gameVersions.map GameVersion.id).length := by
          simpa using hi
        have hj' : j < (s.gameVersions.map GameVersion.id).length := by
          simpa using hjlt
        have hmi : (s.gameVersions.map GameVersion.id).get ⟨i, hi'⟩ = v.id := by
          simp [hvi]
        have hmj : (s.gameVersions.map GameVersion.id).get ⟨j, hj'⟩ = w.id := by
          simp [hwj]
        have hfin : (⟨j, hj'⟩ : Fin (s.gameVersions.map GameVersion.id).length)
            = ⟨i, hi'⟩ :=
          (hn.get_inj_iff).1 (hmj.trans (hEq.trans hmi.symm))
        exact congrArg Fin.val hfin
      simp [hne]

/-- The concrete version list of the spec's C5 example: two versions with
files `A` and `B`, selection at `1`. -/
def exampleVersion0 : GameVersion :=
  { id := 0
    files := { html := "A" }
    description := "d0"
    userPrompt := "p0"
    timestamp := "t0"
    messageId := "m0" }

/-- Second version of the C5 example. -/
def exampleVersion1 : GameVersion :=
  { id := 1
    files := { html := "B" }
    description := "d1"
    userPrompt := "p1"
    timestamp := "t1"
    messageId := "m1" }

/-- The C5 example state: versions `[{id:0,files:A},{id:1,files:B}]`,
selection `1`. -/
def exampleState : HomeState :=
  { initState with
      gameVersions := [exampleVersion0, exampleVersion1]
      currentGameIndex := 1 }

/-- C5 witness: `updateVersionFiles(0, C)` on the example state rewrites
version `0`'s files to `C`, keeps version `1` intact and keeps the
selection at `1`. -/
theorem updateVersionFiles_frame_witness :
    (updateVersionFiles exampleState exampleVersion0 { html := "C" }).currentGameIndex
        = exampleState.currentGameIndex ∧
    (updateVersionFiles exampleState exampleVersion0 { html := "C" }).gameVersions[0]?
        = some { exampleVersion0 with files := { html := "C" } } ∧
    (updateVersionFiles exampleState exampleVersion0 { html := "C" }).gameVersions[1]?
        = exampleState.gameVersions[1]? :=
  ⟨(updateVersionFiles_frame exampleState 0 { html := "C" } exampleVersion0
      rfl (by decide)).1,
   (updateVersionFiles_frame exampleState 0 { html := "C" } exampleVersion0
      rfl (by decide)).2.2.2.2.2.1,
   (updateVersionFiles_frame exampleState 0 { html := "C" } exampleVersion0
      rfl (by decide)).2.2.2.2.2.2 1 (by decide)⟩

end Websimm
